import Mathlib

/-!
Shallow embedding of the `CallbackNotifier` class from
`tools/emulator/system/camera/CallbackNotifier.cpp` (Android emulated camera
HAL glue).  The class mediates between a frame-producing emulated camera
device and a consumer that registered camera HAL callbacks: it holds the
callback registry, the enabled-message bitmask, and the video-recording
rate gate, and dispatches video frames in `onNextFrameAvailable`.

Modelling choices:
* Callback pointers and the opaque context are modelled by their presence
  (`true` = non-NULL).  The dispatcher only branches on presence, passes the
  context through unmodified, and never inspects pointed-to data.
* `mMessageEnabler` is a 32-bit unsigned mask, modelled as a `Nat` together
  with explicit reduction `% 2 ^ 32` of every incoming `uint` argument;
  `~x` on a `uint` becomes `(2 ^ 32 - 1) ^^^ x`.
* `nsecs_t` timestamps and the refresh interval are modelled as `Int`
  (`int64_t` in the source; the 64-bit width is never exercised by the
  nanosecond magnitudes involved).  C `/` on integers truncates toward
  zero, which is `Int.tdiv`.
* Operations whose C++ execution is undefined return `none`:
  `enableVideoRecording` with `fps = 0` divides by zero, and
  `onNextFrameAvailable` calls through `mGetMemoryCB` without a NULL check.
* External effects of a dispatch (the `mGetMemoryCB` allocation request and
  the `mDataCBTimestamp` invocation) are recorded as an `Event` trace; the
  response of the consumer-side allocator is a parameter (`AllocResp`).
-/

/-- `CAMERA_MSG_VIDEO_FRAME` is bit 5 (value 0x20) of the camera message
enumeration `error, shutter, focus, zoom, preview-frame, video-frame, ...`. -/
def CAMERA_MSG_VIDEO_FRAME : Nat := 32

/-- The `NO_ERROR` status value of `status_t`. -/
def NO_ERROR : Int := 0

/-- Modulus of the 32-bit unsigned arithmetic used for the message mask. -/
def U32_MOD : Nat := 2 ^ 32

/-- State of a `CallbackNotifier` object: the registered callbacks (by
presence), the opaque context (by presence), the rate-gate fields and the
message mask.  Field names follow the C++ member names. -/
structure CallbackNotifier where
  mNotifyCB : Bool
  mDataCB : Bool
  mDataCBTimestamp : Bool
  mGetMemoryCB : Bool
  mCBOpaque : Bool
  mLastFrameTimestamp : Int
  mFrameRefreshFreq : Int
  mMessageEnabler : Nat
  mVideoRecEnabled : Bool
deriving DecidableEq

/-- `CallbackNotifier::CallbackNotifier()`: every member NULL / zero /
false. -/
def mkCallbackNotifier : CallbackNotifier :=
  { mNotifyCB := false
    mDataCB := false
    mDataCBTimestamp := false
    mGetMemoryCB := false
    mCBOpaque := false
    mLastFrameTimestamp := 0
    mFrameRefreshFreq := 0
    mMessageEnabler := 0
    mVideoRecEnabled := false }

/-- `CallbackNotifier::setCallbacks`: wholesale replacement of the five
registry slots. -/
def setCallbacks (s : CallbackNotifier)
    (notify_cb data_cb data_cb_timestamp get_memory user : Bool) :
    CallbackNotifier :=
  { s with
    mNotifyCB := notify_cb
    mDataCB := data_cb
    mDataCBTimestamp := data_cb_timestamp
    mGetMemoryCB := get_memory
    mCBOpaque := user }

/-- `CallbackNotifier::enableMessage`: `mMessageEnabler |= msg_type`. -/
def enableMessage (s : CallbackNotifier) (msg_type : Nat) : CallbackNotifier :=
  { s with mMessageEnabler := s.mMessageEnabler ||| msg_type % U32_MOD }

/-- `CallbackNotifier::disableMessage`: `mMessageEnabler &= ~msg_type`. -/
def disableMessage (s : CallbackNotifier) (msg_type : Nat) : CallbackNotifier :=
  { s with mMessageEnabler :=
      s.mMessageEnabler &&& ((U32_MOD - 1) ^^^ msg_type % U32_MOD) }

/-- `CallbackNotifier::isMessageEnabled`: the source literally returns
`mMessageEnabler & ~msg_type` (an `int`, used as a boolean by callers). -/
def isMessageEnabled (s : CallbackNotifier) (msg_type : Nat) : Nat :=
  s.mMessageEnabler &&& ((U32_MOD - 1) ^^^ msg_type % U32_MOD)

/-- The mask query as the specification words it, for comparison with the
source's `isMessageEnabled`: true iff all requested bits are currently set,
i.e. `(mask & bits) == bits`. -/
def isMessageEnabledSpec (s : CallbackNotifier) (msg_type : Nat) : Bool :=
  s.mMessageEnabler &&& msg_type % U32_MOD == msg_type % U32_MOD

/-- `CallbackNotifier::enableVideoRecording`: the source performs no
validation of `fps`.  It sets `mVideoRecEnabled = true`,
`mLastFrameTimestamp = 0`, `mFrameRefreshFreq = 1000000000LL / fps` and
returns `NO_ERROR`.  With `fps = 0` the division is undefined behavior,
modelled as `none`. -/
def enableVideoRecording (s : CallbackNotifier) (fps : Int) :
    Option (CallbackNotifier × Int) :=
  if fps = 0 then none
  else
    some ({ s with
            mVideoRecEnabled := true
            mLastFrameTimestamp := 0
            mFrameRefreshFreq := Int.tdiv 1000000000 fps }, NO_ERROR)

/-- `CallbackNotifier::disableVideoRecording`. -/
def disableVideoRecording (s : CallbackNotifier) : CallbackNotifier :=
  { s with
    mVideoRecEnabled := false
    mLastFrameTimestamp := 0
    mFrameRefreshFreq := 0 }

/-- `CallbackNotifier::isVideoRecordingEnabled`. -/
def isVideoRecordingEnabled (s : CallbackNotifier) : Bool :=
  s.mVideoRecEnabled

/-- `CallbackNotifier::cleanupCBNotifier`: resets every member. -/
def cleanupCBNotifier (s : CallbackNotifier) : CallbackNotifier :=
  { s with
    mMessageEnabler := 0
    mNotifyCB := false
    mDataCB := false
    mDataCBTimestamp := false
    mGetMemoryCB := false
    mCBOpaque := false
    mLastFrameTimestamp := 0
    mFrameRefreshFreq := 0
    mVideoRecEnabled := false }

/-- `CallbackNotifier::isNewVideoFrameTime`: admits the frame and records
its timestamp iff `timestamp - mLastFrameTimestamp >= mFrameRefreshFreq`;
on rejection the state is untouched. -/
def isNewVideoFrameTime (s : CallbackNotifier) (timestamp : Int) :
    Bool × CallbackNotifier :=
  if timestamp - s.mLastFrameTimestamp ≥ s.mFrameRefreshFreq then
    (true, { s with mLastFrameTimestamp := timestamp })
  else
    (false, s)

/-- Outcome of one call to the consumer's `camera_request_memory` allocator:
the returned `camera_memory_t*` may be NULL, have NULL `data`, or be usable. -/
inductive AllocResp where
  | nullBuffer
  | nullData
  | ok
deriving DecidableEq

/-- Externally observable effects of a dispatch: a `mGetMemoryCB` request
(the source passes pool id `-1`, the frame buffer size, and buffer count
`1`) and a `mDataCBTimestamp` invocation (the source passes the timestamp,
`CAMERA_MSG_VIDEO_FRAME`, and offset `0`). -/
inductive Event where
  | getMemoryCall (poolId : Int) (bufSize : Nat) (numBufs : Nat)
  | dataCBTimestampCall (timestamp : Int) (msgType : Nat) (offset : Nat)
deriving DecidableEq

/-- `CallbackNotifier::onNextFrameAvailable`: under the object lock, if the
video-frame bit is enabled, `mDataCBTimestamp` is non-NULL, recording is
enabled, and `isNewVideoFrameTime(timestamp)` admits the frame, then the
source calls `mGetMemoryCB(-1, frameBufferSize, 1, NULL)` with no NULL
check on `mGetMemoryCB` (modelled as `none` when that slot is NULL: the
call through the NULL function pointer is undefined behavior); on a usable
buffer it copies the frame and invokes `mDataCBTimestamp`, otherwise it
logs the memory failure and drops the frame. -/
def onNextFrameAvailable (s : CallbackNotifier) (timestamp : Int)
    (frameBufferSize : Nat) (resp : AllocResp) :
    Option (CallbackNotifier × List Event) :=
  if s.mMessageEnabler &&& CAMERA_MSG_VIDEO_FRAME ≠ 0 ∧
      s.mDataCBTimestamp = true ∧ s.mVideoRecEnabled = true then
    if (isNewVideoFrameTime s timestamp).1 = true then
      if s.mGetMemoryCB = true then
        match resp with
        | AllocResp.ok =>
            some ((isNewVideoFrameTime s timestamp).2,
              [Event.getMemoryCall (-1) frameBufferSize 1,
               Event.dataCBTimestampCall timestamp CAMERA_MSG_VIDEO_FRAME 0])
        | _ =>
            some ((isNewVideoFrameTime s timestamp).2,
              [Event.getMemoryCall (-1) frameBufferSize 1])
      else none
    else
      some ((isNewVideoFrameTime s timestamp).2, [])
  else
    some (s, [])

/-- Feed a list of frames through `onNextFrameAvailable`, with a consumer
allocator that always succeeds, collecting the event trace. -/
def runFrames (s : CallbackNotifier) (stamps : List Int)
    (frameBufferSize : Nat) : Option (CallbackNotifier × List Event) :=
  match stamps with
  | [] => some (s, [])
  | t :: rest =>
      match onNextFrameAvailable s t frameBufferSize AllocResp.ok with
      | none => none
      | some (s1, evs) =>
          match runFrames s1 rest frameBufferSize with
          | none => none
          | some (s2, evs2) => some (s2, evs ++ evs2)

/-- Number of `mDataCBTimestamp` invocations (delivered frames) in a trace. -/
def countDeliveries (evs : List Event) : Nat :=
  (evs.filter fun e =>
    match e with
    | Event.dataCBTimestampCall _ _ _ => true
    | _ => false).length

/-- State right after `enableVideoRecording(30)` on a fresh object. -/
def afterEnable30 : CallbackNotifier :=
  ((enableVideoRecording mkCallbackNotifier 30).getD (mkCallbackNotifier, 0)).1

/-- Reachable state with the timestamped-data callback installed but the
request-memory callback NULL, the video-frame bit enabled, and recording
enabled at 30 fps. -/
def c2CrashState : CallbackNotifier :=
  ((enableVideoRecording
      (enableMessage (setCallbacks mkCallbackNotifier false false true false false)
        CAMERA_MSG_VIDEO_FRAME) 30).getD (mkCallbackNotifier, 0)).1

/-- Start state of the end-to-end scenario: full callback set installed,
video-frame bit enabled, recording enabled at 30 fps. -/
def scenarioStart : CallbackNotifier :=
  ((enableVideoRecording
      (enableMessage (setCallbacks mkCallbackNotifier true true true true true)
        CAMERA_MSG_VIDEO_FRAME) 30).getD (mkCallbackNotifier, 0)).1

/-- Result of feeding frames at timestamps 0, 10000000, 40000000 of length
4096 through the scenario, with an always-succeeding allocator. -/
def scenarioResult : Option (CallbackNotifier × List Event) :=
  runFrames scenarioStart [0, 10000000, 40000000] 4096

/-- Claim C1: the source's mask query is inverted.  On a fresh object with
exactly the video-frame bit enabled, querying that very bit returns 0
(false) although all requested bits are set, while with only the error bit
enabled the same query returns 1 (nonzero, i.e. true) although the
requested bit is clear.  The spec-worded query gives the opposite, correct
answers on both states. -/
theorem c1_isMessageEnabled_inverted :
    isMessageEnabled (enableMessage mkCallbackNotifier CAMERA_MSG_VIDEO_FRAME)
        CAMERA_MSG_VIDEO_FRAME = 0 ∧
    isMessageEnabledSpec (enableMessage mkCallbackNotifier CAMERA_MSG_VIDEO_FRAME)
        CAMERA_MSG_VIDEO_FRAME = true ∧
    isMessageEnabled (enableMessage mkCallbackNotifier 1)
        CAMERA_MSG_VIDEO_FRAME = 1 ∧
    isMessageEnabledSpec (enableMessage mkCallbackNotifier 1)
        CAMERA_MSG_VIDEO_FRAME = false := by
  decide

/-- Claim C3: `enableVideoRecording` performs no fps validation.  Called
with `fps = -1` it returns `NO_ERROR` and overwrites the recording state
(with a negative interval) instead of failing with an invalid-argument
status and leaving state unchanged; with `fps = 0` it divides by zero
(undefined behavior). -/
theorem c3_enableVideoRecording_no_validation :
    enableVideoRecording mkCallbackNotifier (-1) =
      some ({ mkCallbackNotifier with
              mVideoRecEnabled := true
              mLastFrameTimestamp := 0
              mFrameRefreshFreq := -1000000000 }, NO_ERROR) ∧
    enableVideoRecording mkCallbackNotifier 0 = none := by
  exact ⟨rfl, rfl⟩

/-- Claim C9: `cleanupCBNotifier` returns every field to its
post-construction value: the state after cleanup equals the constructed
state, whose mask is 0, callbacks and context NULL, recording disabled,
timestamp and interval 0. -/
theorem c9_cleanup_resets (s : CallbackNotifier) :
    cleanupCBNotifier s = mkCallbackNotifier ∧
    isVideoRecordingEnabled (cleanupCBNotifier s) =
      isVideoRecordingEnabled mkCallbackNotifier ∧
    mkCallbackNotifier.mMessageEnabler = 0 ∧
    mkCallbackNotifier.mNotifyCB = false ∧
    mkCallbackNotifier.mDataCB = false ∧
    mkCallbackNotifier.mDataCBTimestamp = false ∧
    mkCallbackNotifier.mGetMemoryCB = false ∧
    mkCallbackNotifier.mCBOpaque = false ∧
    mkCallbackNotifier.mLastFrameTimestamp = 0 ∧
    mkCallbackNotifier.mFrameRefreshFreq = 0 ∧
    mkCallbackNotifier.mVideoRecEnabled = false := by
  exact ⟨rfl, rfl, rfl, rfl, rfl, rfl, rfl, rfl, rfl, rfl, rfl⟩

/-- Claim C2: in the reachable state with the timestamped-data callback
installed but the request-memory callback NULL (video bit on, recording on
at 30 fps), a dispatch at an admitted timestamp is not a no-op: the source
reaches the call through the NULL `mGetMemoryCB` function pointer
(undefined behavior, modelled as `none`) instead of dropping the frame. -/
theorem c2_null_getMemory_not_noop :
    onNextFrameAvailable c2CrashState 33333333 4096 AllocResp.ok = none := by
  decide

/-- Claim C4, counterexample: immediately after `enableVideoRecording(30)`,
the admission check at timestamp 0 — a timestamp that is ≥ 0 — is rejected,
because `0 - 0 >= 33333333` is false. -/
theorem c4_first_frame_ts0_rejected :
    (0 : Int) ≥ 0 ∧ (isNewVideoFrameTime afterEnable30 0).1 = false := by
  exact ⟨le_refl 0, by decide⟩

/-- Claim C4, amended: for every `fps > 0`, immediately after a successful
`enableVideoRecording(fps)` the first admission check with any timestamp
`≥ 1000000000 / fps` (the freshly computed frame interval) is admitted and
records that timestamp, because `mLastFrameTimestamp` was reset to 0. -/
theorem c4_first_frame_admitted_amended (s s' : CallbackNotifier)
    (fps timestamp st : Int) (hfps : 0 < fps)
    (henable : enableVideoRecording s fps = some (s', st))
    (hts : Int.tdiv 1000000000 fps ≤ timestamp) :
    (isNewVideoFrameTime s' timestamp).1 = true ∧
    (isNewVideoFrameTime s' timestamp).2.mLastFrameTimestamp = timestamp := by
  have hne : ¬ fps = 0 := by omega
  unfold enableVideoRecording at henable
  rw [if_neg hne] at henable
  simp only [Option.some.injEq, Prod.mk.injEq] at henable
  obtain ⟨hs, hst⟩ := henable
  subst hs
  unfold isNewVideoFrameTime
  rw [if_pos (by simpa using hts)]
  exact ⟨rfl, rfl⟩

/-- Witness for claim C4's amended theorem at `fps = 30`,
`timestamp = 33333333` on a fresh object. -/
theorem c4_first_frame_admitted_amended_witness :
    (isNewVideoFrameTime afterEnable30 33333333).1 = true ∧
    (isNewVideoFrameTime afterEnable30 33333333).2.mLastFrameTimestamp =
      33333333 :=
  c4_first_frame_admitted_amended mkCallbackNotifier afterEnable30 30 33333333
    NO_ERROR (by decide) (by decide) (by decide)

/-- Claim C5, counterexample: the end-to-end scenario (full callback set,
video bit on, `enableVideoRecording(30)`, frames at 0, 10000000, 40000000
of length 4096) delivers a number of frames different from the claimed
two: the frame at timestamp 0 fails `0 - 0 >= 33333333` and is dropped. -/
theorem c5_not_two_deliveries :
    countDeliveries ((scenarioResult.getD (mkCallbackNotifier, [])).2) ≠ 2 := by
  decide

/-- Claim C5, amended: the scenario delivers exactly one frame, the one at
timestamp 40000000, via one allocator call of size 4096 followed by one
timestamped-data invocation with offset 0; the frames at 0 and 10000000
are dropped by the admission check (their distance to the reference
timestamp 0 is below the 33333333 ns interval). -/
theorem c5_exactly_one_delivery :
    scenarioResult =
      some ({ scenarioStart with mLastFrameTimestamp := 40000000 },
        [Event.getMemoryCall (-1) 4096 1,
         Event.dataCBTimestampCall 40000000 CAMERA_MSG_VIDEO_FRAME 0]) := by
  decide

/-- Claim C6: the admission check returns true and updates
`mLastFrameTimestamp` to the given timestamp iff
`timestamp - mLastFrameTimestamp >= mFrameRefreshFreq`, and on rejection
leaves the state exactly unchanged (so a later admitted call records its
own timestamp, never a rejected one). -/
theorem c6_isNewVideoFrameTime_spec (s : CallbackNotifier) (timestamp : Int) :
    ((isNewVideoFrameTime s timestamp).1 = true ↔
      timestamp - s.mLastFrameTimestamp ≥ s.mFrameRefreshFreq) ∧
    (isNewVideoFrameTime s timestamp).2 =
      (if timestamp - s.mLastFrameTimestamp ≥ s.mFrameRefreshFreq then
        { s with mLastFrameTimestamp := timestamp }
      else s) := by
  unfold isNewVideoFrameTime
  by_cases h : timestamp - s.mLastFrameTimestamp ≥ s.mFrameRefreshFreq
  · rw [if_pos h, if_pos h]
    exact ⟨⟨fun _ => h, fun _ => rfl⟩, rfl⟩
  · rw [if_neg h, if_neg h]
    exact ⟨⟨fun hc => absurd hc Bool.false_ne_true, fun hc => absurd hc h⟩, rfl⟩

/-- Claim C7, counterexample: on a state whose mask already has the
video-frame bit set, `enableMessage` of that bit followed by
`disableMessage` of it clears the bit, so the mask is 0 instead of the
pre-enable value 32: the round trip does not restore the mask. -/
theorem c7_enable_disable_not_restore :
    disableMessage
        (enableMessage (enableMessage mkCallbackNotifier CAMERA_MSG_VIDEO_FRAME)
          CAMERA_MSG_VIDEO_FRAME)
        CAMERA_MSG_VIDEO_FRAME ≠
      enableMessage mkCallbackNotifier CAMERA_MSG_VIDEO_FRAME := by
  decide

/-- Claim C7, amended: neither `enableMessage b` nor `disableMessage b`
ever changes a mask bit outside `b`; and provided no bit of `b` was
already set in the mask (`mask & b = 0`), `enableMessage b` followed by
`disableMessage b` restores the state exactly. -/
theorem c7_enable_disable_amended (s : CallbackNotifier) (b : Nat)
    (hmask : s.mMessageEnabler < U32_MOD) (hb : b < U32_MOD) :
    (∀ i, b.testBit i = false →
        (enableMessage s b).mMessageEnabler.testBit i =
          s.mMessageEnabler.testBit i ∧
        (disableMessage s b).mMessageEnabler.testBit i =
          s.mMessageEnabler.testBit i) ∧
    (s.mMessageEnabler &&& b = 0 →
        disableMessage (enableMessage s b) b = s) := by
  have hbmod : b % U32_MOD = b := Nat.mod_eq_of_lt hb
  have humod : U32_MOD = 2 ^ 32 := rfl
  have hhigh : ∀ i, ¬ i < 32 → s.mMessageEnabler.testBit i = false := by
    intro i hi
    apply Nat.testBit_lt_two_pow
    calc s.mMessageEnabler < 2 ^ 32 := hmask
      _ ≤ 2 ^ i := Nat.pow_le_pow_right (by norm_num) (le_of_not_lt hi)
  constructor
  · intro i hbi
    constructor
    · show (s.mMessageEnabler ||| b % U32_MOD).testBit i =
        s.mMessageEnabler.testBit i
      rw [hbmod, Nat.testBit_lor, hbi, Bool.or_false]
    · show (s.mMessageEnabler &&& ((U32_MOD - 1) ^^^ b % U32_MOD)).testBit i =
        s.mMessageEnabler.testBit i
      rw [hbmod, Nat.testBit_land, Nat.testBit_xor, humod,
        Nat.testBit_two_pow_sub_one, hbi]
      by_cases hi : i < 32
      · simp [hi]
      · simp [hi, hhigh i hi]
  · intro h0
    have hX : (s.mMessageEnabler ||| b % U32_MOD) &&&
        ((U32_MOD - 1) ^^^ b % U32_MOD) = s.mMessageEnabler := by
      rw [hbmod]
      apply Nat.eq_of_testBit_eq
      intro i
      have hland : (s.mMessageEnabler.testBit i && b.testBit i) = false := by
        have hc : (s.mMessageEnabler &&& b).testBit i = false := by
          rw [h0]
          exact Nat.zero_testBit i
        rw [Nat.testBit_land] at hc
        exact hc
      rw [Nat.testBit_land, Nat.testBit_lor, Nat.testBit_xor, humod,
        Nat.testBit_two_pow_sub_one]
      by_cases hi : i < 32
      · cases hbt : b.testBit i
        · simp [hi, hbt]
        · rw [hbt] at hland
          simp only [Bool.and_true] at hland
          simp [hi, hbt, hland]
      · have hbf : b.testBit i = false := by
          apply Nat.testBit_lt_two_pow
          calc b < 2 ^ 32 := hb
            _ ≤ 2 ^ i := Nat.pow_le_pow_right (by norm_num) (le_of_not_lt hi)
        simp [hi, hbf, hhigh i hi]
    show { s with mMessageEnabler := (s.mMessageEnabler ||| b % U32_MOD) &&&
        ((U32_MOD - 1) ^^^ b % U32_MOD) } = s
    rw [hX]

/-- Witness for claim C7's amended theorem: on a fresh object (mask 0) the
enable/disable round trip on the video-frame bit restores the state. -/
theorem c7_enable_disable_amended_witness :
    disableMessage (enableMessage mkCallbackNotifier CAMERA_MSG_VIDEO_FRAME)
        CAMERA_MSG_VIDEO_FRAME = mkCallbackNotifier :=
  (c7_enable_disable_amended mkCallbackNotifier CAMERA_MSG_VIDEO_FRAME
    (by decide) (by decide)).2 (by decide)

/-- Claim C8: a dispatch made while the timestamped-data callback is not
installed (in particular while no callback set at all is installed), or
while the video-frame bit is disabled, or while recording is disabled,
leaves the state unchanged and produces an empty event trace: zero
allocator invocations and zero timestamped-data invocations. -/
theorem c8_gated_dispatch (s : CallbackNotifier) (timestamp : Int)
    (frameBufferSize : Nat) (resp : AllocResp)
    (h : s.mDataCBTimestamp = false ∨
         s.mMessageEnabler &&& CAMERA_MSG_VIDEO_FRAME = 0 ∨
         s.mVideoRecEnabled = false) :
    onNextFrameAvailable s timestamp frameBufferSize resp = some (s, []) := by
  have hnc : ¬(s.mMessageEnabler &&& CAMERA_MSG_VIDEO_FRAME ≠ 0 ∧
      s.mDataCBTimestamp = true ∧ s.mVideoRecEnabled = true) := by
    rintro ⟨h1, h2, h3⟩
    rcases h with hc | hc | hc
    · rw [hc] at h2
      exact Bool.false_ne_true h2
    · exact h1 hc
    · rw [hc] at h3
      exact Bool.false_ne_true h3
  unfold onNextFrameAvailable
  rw [if_neg hnc]

/-- Witness for claim C8 on a fresh object (nothing installed). -/
theorem c8_gated_dispatch_witness :
    onNextFrameAvailable mkCallbackNotifier 0 4096 AllocResp.ok =
      some (mkCallbackNotifier, []) :=
  c8_gated_dispatch mkCallbackNotifier 0 4096 AllocResp.ok (Or.inl rfl)

/-- Helper: a dispatch that terminates normally either leaves the state
unchanged or, when the admission condition held, only records the frame's
timestamp. -/
theorem onNextFrameAvailable_state_cases (s : CallbackNotifier)
    (timestamp : Int) (frameBufferSize : Nat) (resp : AllocResp)
    (s' : CallbackNotifier) (tr : List Event)
    (h : onNextFrameAvailable s timestamp frameBufferSize resp =
      some (s', tr)) :
    s' = s ∨ (timestamp - s.mLastFrameTimestamp ≥ s.mFrameRefreshFreq ∧
      s' = { s with mLastFrameTimestamp := timestamp }) := by
  unfold onNextFrameAvailable at h
  by_cases hadm : timestamp - s.mLastFrameTimestamp ≥ s.mFrameRefreshFreq
  · have hfr : isNewVideoFrameTime s timestamp =
        (true, { s with mLastFrameTimestamp := timestamp }) := by
      unfold isNewVideoFrameTime
      rw [if_pos hadm]
    rw [hfr] at h
    by_cases hg : s.mMessageEnabler &&& CAMERA_MSG_VIDEO_FRAME ≠ 0 ∧
        s.mDataCBTimestamp = true ∧ s.mVideoRecEnabled = true
    · rw [if_pos hg, if_pos rfl] at h
      by_cases hgm : s.mGetMemoryCB = true
      · rw [if_pos hgm] at h
        cases resp
        all_goals simp only [Option.some.injEq, Prod.mk.injEq] at h
        all_goals exact Or.inr ⟨hadm, h.1.symm⟩
      · rw [if_neg hgm] at h
        exact Option.noConfusion h
    · rw [if_neg hg] at h
      simp only [Option.some.injEq, Prod.mk.injEq] at h
      exact Or.inl h.1.symm
  · have hfr : isNewVideoFrameTime s timestamp = (false, s) := by
      unfold isNewVideoFrameTime
      rw [if_neg hadm]
    rw [hfr] at h
    by_cases hg : s.mMessageEnabler &&& CAMERA_MSG_VIDEO_FRAME ≠ 0 ∧
        s.mDataCBTimestamp = true ∧ s.mVideoRecEnabled = true
    · rw [if_pos hg, if_neg (fun hc => Bool.false_ne_true hc)] at h
      simp only [Option.some.injEq, Prod.mk.injEq] at h
      exact Or.inl h.1.symm
    · rw [if_neg hg] at h
      simp only [Option.some.injEq, Prod.mk.injEq] at h
      exact Or.inl h.1.symm

/-- Claim C10: a normally terminating `onNextFrameAvailable` never changes
the message mask, any registered callback, the opaque context, the
recording flag, or the frame interval; `mLastFrameTimestamp` either stays
unchanged or — only when the admission condition held — becomes the
frame's timestamp. -/
theorem c10_frame_effect (s : CallbackNotifier) (timestamp : Int)
    (frameBufferSize : Nat) (resp : AllocResp) (s' : CallbackNotifier)
    (tr : List Event)
    (h : onNextFrameAvailable s timestamp frameBufferSize resp =
      some (s', tr)) :
    s'.mNotifyCB = s.mNotifyCB ∧ s'.mDataCB = s.mDataCB ∧
    s'.mDataCBTimestamp = s.mDataCBTimestamp ∧
    s'.mGetMemoryCB = s.mGetMemoryCB ∧ s'.mCBOpaque = s.mCBOpaque ∧
    s'.mMessageEnabler = s.mMessageEnabler ∧
    s'.mVideoRecEnabled = s.mVideoRecEnabled ∧
    s'.mFrameRefreshFreq = s.mFrameRefreshFreq ∧
    (s'.mLastFrameTimestamp = s.mLastFrameTimestamp ∨
      (timestamp - s.mLastFrameTimestamp ≥ s.mFrameRefreshFreq ∧
       s'.mLastFrameTimestamp = timestamp)) := by
  rcases onNextFrameAvailable_state_cases s timestamp frameBufferSize resp s'
      tr h with hs | ⟨hadm, hs⟩
  · subst hs
    exact ⟨rfl, rfl, rfl, rfl, rfl, rfl, rfl, rfl, Or.inl rfl⟩
  · subst hs
    exact ⟨rfl, rfl, rfl, rfl, rfl, rfl, rfl, rfl, Or.inr ⟨hadm, rfl⟩⟩

/-- Witness for claim C10 on a fresh object, whose dispatch at timestamp 0
terminates normally with no state change. -/
theorem c10_frame_effect_witness :
    mkCallbackNotifier.mNotifyCB = mkCallbackNotifier.mNotifyCB ∧
    mkCallbackNotifier.mDataCB = mkCallbackNotifier.mDataCB ∧
    mkCallbackNotifier.mDataCBTimestamp = mkCallbackNotifier.mDataCBTimestamp ∧
    mkCallbackNotifier.mGetMemoryCB = mkCallbackNotifier.mGetMemoryCB ∧
    mkCallbackNotifier.mCBOpaque = mkCallbackNotifier.mCBOpaque ∧
    mkCallbackNotifier.mMessageEnabler = mkCallbackNotifier.mMessageEnabler ∧
    mkCallbackNotifier.mVideoRecEnabled = mkCallbackNotifier.mVideoRecEnabled ∧
    mkCallbackNotifier.mFrameRefreshFreq = mkCallbackNotifier.mFrameRefreshFreq ∧
    (mkCallbackNotifier.mLastFrameTimestamp =
        mkCallbackNotifier.mLastFrameTimestamp ∨
      ((0 : Int) - mkCallbackNotifier.mLastFrameTimestamp ≥
          mkCallbackNotifier.mFrameRefreshFreq ∧
       mkCallbackNotifier.mLastFrameTimestamp = 0)) :=
  c10_frame_effect mkCallbackNotifier 0 4096 AllocResp.ok mkCallbackNotifier
    [] (by decide)
